import Mathlib

/-!
Verification of the `polymarket_ws_client` package (files `client.py` and
`models.py`) against its natural-language specification.

The embedding models JSON values as an inductive type. JSON numbers are
modelled as integers: no property verified here depends on fractional
numeric values. Python dictionaries produced by `json.loads` are modelled
as association lists with first-match lookup; the frames built in the
theorems below use each key at most once, so the duplicate-key behaviour
of Python dicts (last occurrence wins) never diverges from the model.

The pydantic models of `models.py` are embedded as structures together with
explicit decoding functions that model pydantic v2 validation (the package
calls `model_dump()`, which exists only in pydantic v2): a required field
must be present with the annotated type, an `Optional[...] = None` field may
be absent, an `Optional[...] = Field(...)` field without default must be
present but may be null, extra keys are ignored, and a `Dict[str, Any]`
field accepts only a JSON object (in particular it rejects pydantic model
instances and scalars). pydantic's lax string-to-number coercions are not
modelled; no claim depends on them.
-/

namespace PolymarketWS

/-- JSON values, as produced by `json.loads`. Numbers are modelled as
integers (no verified property involves fractional values). -/
inductive Json where
  | null : Json
  | bool (b : Bool) : Json
  | num (n : Int) : Json
  | str (s : String) : Json
  | arr (elems : List Json) : Json
  | obj (fields : List (String × Json)) : Json

/-- First-match lookup in a JSON object's field list (Python `dict` access;
the frames considered here never repeat a key). -/
def jlookup (kvs : List (String × Json)) (k : String) : Option Json :=
  match kvs with
  | [] => none
  | (k', v) :: rest => if k' == k then some v else jlookup rest k

/-- Whether a JSON value is an object (a Python `dict`). -/
def Json.isObj : Json → Bool
  | Json.obj _ => true
  | _ => false

/-- Python `==` between an arbitrary JSON value and a string literal:
false whenever the value is not a string (Python equality across types
is `False`, never an error). -/
def jsonStrEq (v : Json) (s : String) : Bool :=
  match v with
  | Json.str t => t == s
  | _ => false

/-! ### models.py -/

/-- Model of `ClobApiKeyCreds` from models.py: key/secret/passphrase triple. -/
structure ClobApiKeyCreds where
  key : String
  secret : String
  passphrase : String
deriving DecidableEq

/-- Model of `GammaAuth` from models.py: a single address. -/
structure GammaAuth where
  address : String
deriving DecidableEq

/-- Model of `Subscription` from models.py. `filters`, `clob_auth` and `gamma_auth`
all default to `None`; the model declares no validator relating
`clob_auth` and `gamma_auth`. -/
structure Subscription where
  topic : String
  type : String
  filters : Option String := none
  clob_auth : Option ClobApiKeyCreds := none
  gamma_auth : Option GammaAuth := none
deriving DecidableEq

/-- Model of `SubscriptionMessage` from models.py. -/
structure SubscriptionMessage where
  subscriptions : List Subscription
deriving DecidableEq

/-- Model of `Message` from models.py. Its `payload` field is annotated
`Dict[str, Any]`, so pydantic validation admits only a JSON object there;
the association list holds that object's fields. -/
structure Message where
  topic : String
  type : String
  timestamp : Int
  payload : List (String × Json)

/-- Model of `Trade` from models.py. `price` is a `float` field, modelled over the
integer-valued JSON numbers of this embedding; `side` is
`Literal["BUY", "SELL"]`; `profileImageOptimized` is the only field with a
default (`None`). -/
structure Trade where
  asset : String
  bio : String
  conditionId : String
  eventSlug : String
  icon : String
  name : String
  outcome : String
  outcomeIndex : Int
  price : Int
  profileImage : String
  profileImageOptimized : Option String := none
  proxyWallet : String
  pseudonym : String
  side : String
  size : Int
  slug : String
  timestamp : Int
  title : String
  transactionHash : String

/-- Model of `Comment` from models.py. `parentCommentID` and `replyAddress` are
`Optional[str] = Field(...)` with no default: required but nullable. -/
structure Comment where
  id : String
  body : String
  parentEntityType : String
  parentEntityID : Int
  parentCommentID : Option String
  userAddress : String
  replyAddress : Option String
  createdAt : String
  updatedAt : String

/-- Model of `Reaction` from models.py. -/
structure Reaction where
  id : String
  commentID : Int
  reactionType : String
  icon : String
  userAddress : String
  createdAt : String

/-! ### pydantic validation of the payload models -/

/-- Required `str` field: present with a string value. -/
def getStr (kvs : List (String × Json)) (k : String) : Option String :=
  match jlookup kvs k with
  | some (Json.str s) => some s
  | _ => none

/-- Required `int` field: present with an integer value. -/
def getInt (kvs : List (String × Json)) (k : String) : Option Int :=
  match jlookup kvs k with
  | some (Json.num n) => some n
  | _ => none

/-- Decoding of an `Optional[str] = None` field: may be absent; if present, null or a
string. Decoding yields `none` on absence or null. The outer `Option`
is `none` when the value present has a non-string, non-null type. -/
def getOptStrDefault (kvs : List (String × Json)) (k : String) :
    Option (Option String) :=
  match jlookup kvs k with
  | none => some none
  | some Json.null => some none
  | some (Json.str s) => some (some s)
  | some _ => none

/-- Decoding of an `Optional[str] = Field(...)` field with no default: the key must be present,
its value null or a string. -/
def getReqOptStr (kvs : List (String × Json)) (k : String) :
    Option (Option String) :=
  match jlookup kvs k with
  | some Json.null => some none
  | some (Json.str s) => some (some s)
  | _ => none

/-- First third of `Trade` validation (the split into thirds only keeps the
generated code small; pydantic validates all fields of the model and the
decode succeeds exactly when every field validates). -/
def tradeFieldsA (kvs : List (String × Json)) :
    Option (String × String × String × String × String × String × String) := do
  let asset ← getStr kvs "asset"
  let bio ← getStr kvs "bio"
  let conditionId ← getStr kvs "conditionId"
  let eventSlug ← getStr kvs "eventSlug"
  let icon ← getStr kvs "icon"
  let name ← getStr kvs "name"
  let outcome ← getStr kvs "outcome"
  pure (asset, bio, conditionId, eventSlug, icon, name, outcome)

/-- Second third of `Trade` validation. -/
def tradeFieldsB (kvs : List (String × Json)) :
    Option (Int × Int × String × Option String × String × String) := do
  let outcomeIndex ← getInt kvs "outcomeIndex"
  let price ← getInt kvs "price"
  let profileImage ← getStr kvs "profileImage"
  let profileImageOptimized ← getOptStrDefault kvs "profileImageOptimized"
  let proxyWallet ← getStr kvs "proxyWallet"
  let pseudonym ← getStr kvs "pseudonym"
  pure (outcomeIndex, price, profileImage, profileImageOptimized,
        proxyWallet, pseudonym)

/-- Last third of `Trade` validation, including the
`Literal["BUY", "SELL"]` constraint on `side`. -/
def tradeFieldsC (kvs : List (String × Json)) :
    Option (String × Int × String × Int × String × String) := do
  let side ← getStr kvs "side"
  if side == "BUY" || side == "SELL" then
    let size ← getInt kvs "size"
    let slug ← getStr kvs "slug"
    let timestamp ← getInt kvs "timestamp"
    let title ← getStr kvs "title"
    let transactionHash ← getStr kvs "transactionHash"
    pure (side, size, slug, timestamp, title, transactionHash)
  else none

/-- pydantic validation of `Trade(**payload)`: `none` models a raised
`ValidationError`. -/
def Trade.fromJson? (kvs : List (String × Json)) : Option Trade := do
  let (asset, bio, conditionId, eventSlug, icon, name, outcome) ←
    tradeFieldsA kvs
  let (outcomeIndex, price, profileImage, profileImageOptimized,
       proxyWallet, pseudonym) ← tradeFieldsB kvs
  let (side, size, slug, timestamp, title, transactionHash) ←
    tradeFieldsC kvs
  pure { asset, bio, conditionId, eventSlug, icon, name, outcome,
         outcomeIndex, price, profileImage, profileImageOptimized,
         proxyWallet, pseudonym, side, size, slug, timestamp, title,
         transactionHash }

/-- pydantic validation of `Comment(**payload)`. -/
def Comment.fromJson? (kvs : List (String × Json)) : Option Comment := do
  let id ← getStr kvs "id"
  let body ← getStr kvs "body"
  let parentEntityType ← getStr kvs "parentEntityType"
  if parentEntityType == "Event" || parentEntityType == "Series" then
    let parentEntityID ← getInt kvs "parentEntityID"
    let parentCommentID ← getReqOptStr kvs "parentCommentID"
    let userAddress ← getStr kvs "userAddress"
    let replyAddress ← getReqOptStr kvs "replyAddress"
    let createdAt ← getStr kvs "createdAt"
    let updatedAt ← getStr kvs "updatedAt"
    pure { id, body, parentEntityType, parentEntityID, parentCommentID,
           userAddress, replyAddress, createdAt, updatedAt }
  else none

/-- pydantic validation of `Reaction(**payload)`. -/
def Reaction.fromJson? (kvs : List (String × Json)) : Option Reaction := do
  let id ← getStr kvs "id"
  let commentID ← getInt kvs "commentID"
  let reactionType ← getStr kvs "reactionType"
  let icon ← getStr kvs "icon"
  let userAddress ← getStr kvs "userAddress"
  let createdAt ← getStr kvs "createdAt"
  pure { id, commentID, reactionType, icon, userAddress, createdAt }

/-! ### client.py: `PolymarketWSClient._parse_payload` -/

/-- Result of `_parse_payload`: a structured record, or the raw value the
method was given (its declared fallback). -/
inductive ParsedPayload where
  | trade (t : Trade) : ParsedPayload
  | comment (c : Comment) : ParsedPayload
  | reaction (r : Reaction) : ParsedPayload
  | raw (v : Json) : ParsedPayload

/-- Evaluation of `Trade(**payload)` for an arbitrary runtime value: a non-dict argument
to `**` raises `TypeError`, a dict failing validation raises
`ValidationError`; both are caught by `_parse_payload`. -/
def tryTrade (payload : Json) : Option Trade :=
  match payload with
  | Json.obj kvs => Trade.fromJson? kvs
  | _ => none

/-- Evaluation of `Comment(**payload)` for an arbitrary runtime value. -/
def tryComment (payload : Json) : Option Comment :=
  match payload with
  | Json.obj kvs => Comment.fromJson? kvs
  | _ => none

/-- Evaluation of `Reaction(**payload)` for an arbitrary runtime value. -/
def tryReaction (payload : Json) : Option Reaction :=
  match payload with
  | Json.obj kvs => Reaction.fromJson? kvs
  | _ => none

/-- Model of `PolymarketWSClient._parse_payload` (client.py lines 114–127). The
`topic` and `payload_type` arguments are the values `data.get("topic", "")`
and `data.get("type", "")`, which need not be strings at runtime; Python's
`==` against a string literal is then simply `False` (`jsonStrEq`). The
returned `Bool` records whether the `except` branch logged its
"Failed to parse payload" warning before falling back to the raw value. -/
def parsePayload (topicV tyV : Json) (payload : Json) : ParsedPayload × Bool :=
  if jsonStrEq topicV "activity" && jsonStrEq tyV "trades" then
    match tryTrade payload with
    | some t => (ParsedPayload.trade t, false)
    | none => (ParsedPayload.raw payload, true)
  else if jsonStrEq topicV "comments" &&
      (jsonStrEq tyV "comment_created" || jsonStrEq tyV "comment_removed") then
    match tryComment payload with
    | some c => (ParsedPayload.comment c, false)
    | none => (ParsedPayload.raw payload, true)
  else if jsonStrEq topicV "comments" &&
      (jsonStrEq tyV "reaction_created" || jsonStrEq tyV "reaction_removed") then
    match tryReaction payload with
    | some r => (ParsedPayload.reaction r, false)
    | none => (ParsedPayload.raw payload, true)
  else
    (ParsedPayload.raw payload, false)

/-- The (topic, type) pairs the resolution table of `_parse_payload` maps
to a structured shape. -/
def recognizedPair (topic ty : String) : Bool :=
  (topic == "activity" && ty == "trades") ||
  (topic == "comments" &&
    (ty == "comment_created" || ty == "comment_removed" ||
     ty == "reaction_created" || ty == "reaction_removed"))

/-- Whether the structured decode the table selects for a recognized
(topic, type) pair succeeds on the payload map; `false` for unrecognized
pairs, which attempt no structured decode. -/
def structuredDecodeOk (topic ty : String) (p : List (String × Json)) : Bool :=
  if topic == "activity" && ty == "trades" then
    (Trade.fromJson? p).isSome
  else if topic == "comments" && (ty == "comment_created" || ty == "comment_removed") then
    (Comment.fromJson? p).isSome
  else if topic == "comments" && (ty == "reaction_created" || ty == "reaction_removed") then
    (Reaction.fromJson? p).isSome
  else false

/-! ### client.py: `PolymarketWSClient._message_loop` -/

/-- Construction of `Message(topic=..., type=..., timestamp=...,
payload=parsed_payload)` in `_message_loop`: pydantic v2 validation
requires a string for `topic` and `type`, an integer for `timestamp`,
and — since `payload` is annotated `Dict[str, Any]` — a dict for
`payload`; a `Trade`/`Comment`/`Reaction` instance or a non-dict raw value
is rejected (`Input should be a valid dictionary`). `none` models the
raised `ValidationError`, caught by the loop's generic handler. -/
def mkMessage (topicV tyV tsV : Json) (p : ParsedPayload) : Option Message :=
  match p with
  | ParsedPayload.raw (Json.obj kvs) =>
    match topicV, tyV, tsV with
    | Json.str t, Json.str ty, Json.num n => some ⟨t, ty, n, kvs⟩
    | _, _, _ => none
  | _ => none

/-- One inbound frame, as seen by `async for message in self.websocket`:
an empty (falsy) frame, a frame `json.loads` rejects, or a frame that
decodes to the JSON value carried. -/
inductive Frame where
  | empty : Frame
  | malformed : Frame
  | wellFormed (j : Json) : Frame

/-- What `_message_loop` does with one frame. `dispatched m warned` means
the message hook is invoked with `m` (when a hook is registered) and
`warned` tells whether `_parse_payload` logged its fallback warning;
`skippedEmpty` is the `if not message: continue` branch; `discarded` is the
debug-logged non-data branch (no dict, or no "payload" key);
`decodeError` is the logged `json.JSONDecodeError` branch; `processError`
is the logged generic `except Exception` branch. -/
inductive FrameResult where
  | dispatched (m : Message) (warned : Bool) : FrameResult
  | skippedEmpty : FrameResult
  | discarded : FrameResult
  | decodeError : FrameResult
  | processError : FrameResult

/-- The data branch of `_message_loop`: resolve the payload, then build
the `Message` and dispatch it, or fall into the generic `except` branch
when the `Message` constructor raises. -/
def processData (topicV tyV tsV pV : Json) : FrameResult :=
  let pr := parsePayload topicV tyV pV
  match mkMessage topicV tyV tsV pr.1 with
  | some m => FrameResult.dispatched m pr.2
  | none => FrameResult.processError

/-- The body of `_message_loop` (client.py lines 129–162) for one frame.
The three `data.get` defaults are applied before `_parse_payload` and
`Message` run. -/
def processFrame (fr : Frame) : FrameResult :=
  match fr with
  | Frame.empty => FrameResult.skippedEmpty
  | Frame.malformed => FrameResult.decodeError
  | Frame.wellFormed j =>
    match j with
    | Json.obj kvs =>
      match jlookup kvs "payload" with
      | none => FrameResult.discarded
      | some pV =>
          processData ((jlookup kvs "topic").getD (Json.str ""))
            ((jlookup kvs "type").getD (Json.str ""))
            ((jlookup kvs "timestamp").getD (Json.num 0)) pV
    | _ => FrameResult.discarded

/-- Model of `_message_loop` over a whole inbound stream: each frame is handled
independently and the loop never terminates early on a bad frame. -/
def messageLoop (frames : List Frame) : List FrameResult :=
  frames.map processFrame

/-- A singleton field list for an optional key of a frame. -/
def optEntry (k : String) : Option Json → List (String × Json)
  | none => []
  | some v => [(k, v)]

/-- A well-formed outer frame carrying a "payload" key and, optionally,
"topic"/"type"/"timestamp" keys. -/
def mkDataFrame (tV tyV tsV : Option Json) (pV : Json) : Json :=
  Json.obj (optEntry "topic" tV ++ optEntry "type" tyV ++
            optEntry "timestamp" tsV ++ [("payload", pV)])

/-! ### client.py: `connect`, `disconnect` and the hook order -/

/-- Externally observable events of `connect`'s loop: the connect hook
firing, the message hook firing, the fixed reconnect delay, and the loop
returning. The model takes both hooks as registered; an event marks the
point where the corresponding callback is submitted to the executor. -/
inductive LoopEvent where
  | connectHookFired : LoopEvent
  | messageHookFired (m : Message) : LoopEvent
  | reconnectDelay : LoopEvent
  | loopExited : LoopEvent

/-- The hook events one frame contributes. -/
def frameEvents (fr : Frame) : List LoopEvent :=
  match processFrame fr with
  | FrameResult.dispatched m _ => [LoopEvent.messageHookFired m]
  | _ => []

/-- The hook events of one established connection: `connect` awaits the
`on_connect` executor call before starting the ping task and entering
`_message_loop`, so the connect hook event strictly precedes every
dispatch of that connection. -/
def sessionEvents (frames : List Frame) : List LoopEvent :=
  LoopEvent.connectHookFired :: frames.flatMap frameEvents

/-- Fate of one iteration of `connect`'s `while True` loop, decided by the
environment: the transport open fails, or a connection is established,
receives `frames`, and ends when the transport closes or errors.
`stopDuring` records whether the session ended because `disconnect()` was
called (it sets `self.running = False` and closes the transport). -/
inductive SessionOutcome where
  | openError : SessionOutcome
  | established (frames : List Frame) (stopDuring : Bool) : SessionOutcome

/-- Model of `PolymarketWSClient.connect` (client.py lines 57–102): the event trace
of the `while True` loop over a schedule of session outcomes. The source
reads `self.auto_reconnect` alone to decide whether to loop again — the
`self.running` flag written by `disconnect()` is read only by
`_ping_loop`, never by `connect`, and `connect` sets it back to `True` at
the start of every established session. The model therefore takes the
loop-continuation decision from `autoReconnect` only, exactly as the
source does; `stopDuring` influences nothing but the end of its own
session. -/
def runLoop (autoReconnect : Bool) : List SessionOutcome → List LoopEvent
  | [] => []
  | SessionOutcome.openError :: rest =>
      if autoReconnect then
        LoopEvent.reconnectDelay :: runLoop autoReconnect rest
      else [LoopEvent.loopExited]
  | SessionOutcome.established frames _ :: rest =>
      sessionEvents frames ++
      (if autoReconnect then runLoop autoReconnect rest
       else [LoopEvent.loopExited])

/-- Whether an event is a connect-hook invocation. -/
def isConnectHook : LoopEvent → Bool
  | LoopEvent.connectHookFired => true
  | _ => false

/-! ### client.py: `subscribe` / `unsubscribe` -/

/-- The transport handle: open, or already closed (a stale handle left in
`self.websocket` after the connection ended). -/
structure Transport where
  isOpen : Bool
deriving DecidableEq

/-- The client state the subscription methods consult: `self.websocket`
is `None` until the first connection is established and is never reset to
`None` afterwards; `running` is the flag written by `connect` and
`disconnect`. -/
structure ClientState where
  websocket : Option Transport
  running : Bool
deriving DecidableEq

/-- Whether the client's transport is open. -/
def transportOpen (st : ClientState) : Bool :=
  match st.websocket with
  | some w => w.isOpen
  | none => false

/-- JSON encoding of `ClobApiKeyCreds` under `model_dump()`. -/
def ClobApiKeyCreds.toJson (c : ClobApiKeyCreds) : Json :=
  Json.obj [("key", Json.str c.key), ("secret", Json.str c.secret),
            ("passphrase", Json.str c.passphrase)]

/-- JSON encoding of `GammaAuth` under `model_dump()`. -/
def GammaAuth.toJson (g : GammaAuth) : Json :=
  Json.obj [("address", Json.str g.address)]

/-- Encoding of `Option` fields: `model_dump()` emits `null` when absent. -/
def optJson (f : α → Json) : Option α → Json
  | none => Json.null
  | some a => f a

/-- JSON encoding of one `Subscription` under `model_dump()`, fields in
declaration order. -/
def Subscription.toJson (s : Subscription) : Json :=
  Json.obj [("topic", Json.str s.topic), ("type", Json.str s.type),
            ("filters", optJson Json.str s.filters),
            ("clob_auth", optJson ClobApiKeyCreds.toJson s.clob_auth),
            ("gamma_auth", optJson GammaAuth.toJson s.gamma_auth)]

/-- The outbound frame `{"action": <action>, **msg.model_dump()}` built by
`subscribe` (with `"subscribe"`) and `unsubscribe` (with
`"unsubscribe"`). -/
def actionFrame (action : String) (msg : SubscriptionMessage) : Json :=
  Json.obj [("action", Json.str action),
            ("subscriptions", Json.arr (msg.subscriptions.map Subscription.toJson))]

/-- What a call to `subscribe`/`unsubscribe` does. `notConnectedError` is
the synchronous `RuntimeError("Not connected to WebSocket server")` raised
before any send; `sent` is a successful send of the frame;
`sendFailedThenClosed` is the branch where `websocket.send` raised, the
error was logged, and the transport was closed. -/
inductive SendOutcome where
  | notConnectedError : SendOutcome
  | sent (frame : Json) : SendOutcome
  | sendFailedThenClosed (frame : Json) : SendOutcome

/-- Shared body of `subscribe` and `unsubscribe` (client.py lines
170–200): the only guard is `if not self.websocket`, i.e. the presence of
the handle — not its openness. With a present handle a send is always
attempted; on a closed transport it raises and the `except` branch logs
and closes. -/
def sendAction (st : ClientState) (action : String)
    (msg : SubscriptionMessage) : SendOutcome :=
  match st.websocket with
  | none => SendOutcome.notConnectedError
  | some w =>
      if w.isOpen then SendOutcome.sent (actionFrame action msg)
      else SendOutcome.sendFailedThenClosed (actionFrame action msg)

/-- Model of `PolymarketWSClient.subscribe`. -/
def subscribeAction (st : ClientState) (msg : SubscriptionMessage) : SendOutcome :=
  sendAction st "subscribe" msg

/-- Model of `PolymarketWSClient.unsubscribe`. -/
def unsubscribeAction (st : ClientState) (msg : SubscriptionMessage) : SendOutcome :=
  sendAction st "unsubscribe" msg

/-- Whether the outcome involved a call to `websocket.send`. -/
def sendAttempted : SendOutcome → Bool
  | SendOutcome.notConnectedError => false
  | _ => true

/-! ### Decoding the outbound subscription frame

The decoder reads the documented wire format back: it is the spec's side
of the round-trip property and is compared with the encoder taken from
the source. -/

/-- Decode one subscription entry of the wire frame. -/
def decodeSubscription (j : Json) : Option Subscription := do
  match j with
  | Json.obj kvs =>
    let topic ← getStr kvs "topic"
    let ty ← getStr kvs "type"
    let filters ←
      match jlookup kvs "filters" with
      | some Json.null => some none
      | some (Json.str s) => some (some s)
      | _ => none
    let clob ←
      match jlookup kvs "clob_auth" with
      | some Json.null => some none
      | some (Json.obj ckvs) => do
          let key ← getStr ckvs "key"
          let secret ← getStr ckvs "secret"
          let passphrase ← getStr ckvs "passphrase"
          pure (some ⟨key, secret, passphrase⟩)
      | _ => none
    let gamma ←
      match jlookup kvs "gamma_auth" with
      | some Json.null => some none
      | some (Json.obj gkvs) => do
          let address ← getStr gkvs "address"
          pure (some ⟨address⟩)
      | _ => none
    pure ⟨topic, ty, filters, clob, gamma⟩
  | _ => none

/-- Decode every entry of the subscriptions array. -/
def decodeSubs : List Json → Option (List Subscription)
  | [] => some []
  | j :: rest => do
      let s ← decodeSubscription j
      let others ← decodeSubs rest
      pure (s :: others)

/-- Decode the outbound frame into its action marker and its
subscriptions array. -/
def decodeFrame (j : Json) : Option (String × List Subscription) :=
  match j with
  | Json.obj kvs =>
    match jlookup kvs "action", jlookup kvs "subscriptions" with
    | some (Json.str a), some (Json.arr xs) =>
        (decodeSubs xs).map (fun subs => (a, subs))
    | _, _ => none
  | _ => none

/-! ## Helper lemmas -/

theorem jsonStrEq_str (t s : String) : jsonStrEq (Json.str t) s = (t == s) := rfl

/-- Reading the canonical data frame hands `processData` the three
`data.get` defaults, exactly as `_message_loop` does. -/
theorem processFrame_mkDataFrame (tV tyV tsV : Option Json) (pV : Json) :
    processFrame (Frame.wellFormed (mkDataFrame tV tyV tsV pV)) =
      processData (tV.getD (Json.str "")) (tyV.getD (Json.str ""))
        (tsV.getD (Json.num 0)) pV := by
  cases tV <;> cases tyV <;> cases tsV <;> rfl

/-- A successfully validated `Message` determines the runtime values it
was built from. -/
theorem mkMessage_eq_some (topicV tyV tsV : Json) (p : ParsedPayload)
    (m : Message) (h : mkMessage topicV tyV tsV p = some m) :
    topicV = Json.str m.topic ∧ tyV = Json.str m.type ∧
    tsV = Json.num m.timestamp ∧ p = ParsedPayload.raw (Json.obj m.payload) := by
  unfold mkMessage at h
  split at h
  · split at h
    · injection h with h'
      subst h'
      exact ⟨rfl, rfl, rfl, rfl⟩
    · cases h
  · cases h

theorem tryTrade_nonObj (v : Json) (h : v.isObj = false) : tryTrade v = none := by
  cases v <;> simp_all [tryTrade, Json.isObj]

theorem tryComment_nonObj (v : Json) (h : v.isObj = false) : tryComment v = none := by
  cases v <;> simp_all [tryComment, Json.isObj]

theorem tryReaction_nonObj (v : Json) (h : v.isObj = false) : tryReaction v = none := by
  cases v <;> simp_all [tryReaction, Json.isObj]

/-- On a non-dict payload every structured constructor raises, so
`_parse_payload` always returns the raw value. -/
theorem parsePayload_nonObj (a b v : Json) (h : v.isObj = false) :
    (parsePayload a b v).1 = ParsedPayload.raw v := by
  unfold parsePayload
  split
  · rw [tryTrade_nonObj v h]
  · split
    · rw [tryComment_nonObj v h]
    · split
      · rw [tryReaction_nonObj v h]
      · rfl

/-- Lemma: `Message` validation rejects a raw payload that is not a dict. -/
theorem mkMessage_nonObj (a b c v : Json) (h : v.isObj = false) :
    mkMessage a b c (ParsedPayload.raw v) = none := by
  cases v <;> simp_all [mkMessage, Json.isObj]

/-- A single frame never contributes a connect-hook event. -/
theorem frameEvents_no_connect (fr : Frame) :
    (frameEvents fr).countP isConnectHook = 0 := by
  unfold frameEvents
  cases processFrame fr <;> simp [isConnectHook]

/-- The dispatch events of a connection contain no connect-hook event. -/
theorem flatMap_no_connect (frames : List Frame) :
    (frames.flatMap frameEvents).countP isConnectHook = 0 := by
  induction frames with
  | nil => rfl
  | cons fr rest ih =>
      simp [List.flatMap_cons, List.countP_append, ih, frameEvents_no_connect]

/-- Decoding inverts the `model_dump()` encoding of one subscription. -/
theorem decodeSubscription_toJson (s : Subscription) :
    decodeSubscription s.toJson = some s := by
  obtain ⟨t, ty, f, c, g⟩ := s
  cases f <;> cases c <;> cases g <;> rfl

/-- Decoding inverts the encoding of a whole subscriptions array. -/
theorem decodeSubs_map_toJson (l : List Subscription) :
    decodeSubs (l.map Subscription.toJson) = some l := by
  induction l with
  | nil => rfl
  | cons s rest ih => simp [decodeSubs, decodeSubscription_toJson, ih]

/-! ## Sample data -/

/-- A payload map that validates as a `Trade`. -/
def tradeSampleJson : List (String × Json) :=
  [("asset", Json.str "0x1"), ("bio", Json.str "b"),
   ("conditionId", Json.str "c"), ("eventSlug", Json.str "e"),
   ("icon", Json.str "i"), ("name", Json.str "n"),
   ("outcome", Json.str "Yes"), ("outcomeIndex", Json.num 0),
   ("price", Json.num 1), ("profileImage", Json.str "p"),
   ("proxyWallet", Json.str "w"), ("pseudonym", Json.str "ps"),
   ("side", Json.str "BUY"), ("size", Json.num 10),
   ("slug", Json.str "s"), ("timestamp", Json.num 1700000000),
   ("title", Json.str "t"), ("transactionHash", Json.str "h")]

/-- The `Trade` that `tradeSampleJson` validates to. -/
def tradeSample : Trade :=
  { asset := "0x1", bio := "b", conditionId := "c", eventSlug := "e",
    icon := "i", name := "n", outcome := "Yes", outcomeIndex := 0,
    price := 1, profileImage := "p", profileImageOptimized := none,
    proxyWallet := "w", pseudonym := "ps", side := "BUY", size := 10,
    slug := "s", timestamp := 1700000000, title := "t",
    transactionHash := "h" }

/-- A payload map that validates as a `Comment`. -/
def commentSampleJson : List (String × Json) :=
  [("id", Json.str "c1"), ("body", Json.str "hi"),
   ("parentEntityType", Json.str "Event"), ("parentEntityID", Json.num 1),
   ("parentCommentID", Json.null), ("userAddress", Json.str "u"),
   ("replyAddress", Json.null), ("createdAt", Json.str "t1"),
   ("updatedAt", Json.str "t2")]

/-- The `Comment` that `commentSampleJson` validates to. -/
def commentSample : Comment :=
  { id := "c1", body := "hi", parentEntityType := "Event",
    parentEntityID := 1, parentCommentID := none, userAddress := "u",
    replyAddress := none, createdAt := "t1", updatedAt := "t2" }

/-- A payload map that validates as a `Reaction`. -/
def reactionSampleJson : List (String × Json) :=
  [("id", Json.str "r1"), ("commentID", Json.num 2),
   ("reactionType", Json.str "like"), ("icon", Json.str "ic"),
   ("userAddress", Json.str "u"), ("createdAt", Json.str "t")]

/-- The `Reaction` that `reactionSampleJson` validates to. -/
def reactionSample : Reaction :=
  { id := "r1", commentID := 2, reactionType := "like", icon := "ic",
    userAddress := "u", createdAt := "t" }

/-- A subscription message used in concrete evaluations. -/
def demoMsg : SubscriptionMessage :=
  ⟨[⟨"activity", "trades", none, none, none⟩]⟩

/-- A client whose connection has ended: `disconnect()` (and the end of
`connect`'s `async with` block) closes the transport but leaves the stale
handle in `self.websocket`. -/
def staleClient : ClientState := ⟨some ⟨false⟩, false⟩

/-- Whether the outcome is the synchronous "not connected" error. -/
def isNotConnectedError : SendOutcome → Bool
  | SendOutcome.notConnectedError => true
  | _ => false

/-- A subscription entry carrying both credential bundles at once; the
pydantic model accepts it, having no validator relating the two. -/
def bothAuthSub : Subscription :=
  { topic := "comments", type := "comment_created",
    clob_auth := some ⟨"key", "secret", "pass"⟩,
    gamma_auth := some ⟨"0xabc"⟩ }

/-! ## Claims -/

/-- Claim C2: a frame whose outer structure is malformed is reported and
discarded (`decodeError`, never a dispatch), and the receive loop goes on
to process every frame before and after it exactly as it would have:
processing a stream splits pointwise around the malformed frame, with no
crash and no hook invocation for it. -/
theorem malformed_frame_reported_loop_continues (pre post : List Frame) :
    messageLoop (pre ++ Frame.malformed :: post) =
      messageLoop pre ++ FrameResult.decodeError :: messageLoop post ∧
    processFrame Frame.malformed = FrameResult.decodeError := by
  constructor
  · simp [messageLoop, processFrame]
  · rfl

/-- Claim C5: per established connection, the connect hook fires exactly
once, and it strictly precedes every message-hook event: the session's
event trace is the connect-hook event followed by the dispatch events,
which contain no connect-hook event. -/
theorem connect_hook_once_before_messages (frames : List Frame) :
    (sessionEvents frames).countP isConnectHook = 1 ∧
    sessionEvents frames =
      LoopEvent.connectHookFired :: frames.flatMap frameEvents ∧
    (frames.flatMap frameEvents).countP isConnectHook = 0 := by
  refine ⟨?_, rfl, flatMap_no_connect frames⟩
  simp [sessionEvents, List.countP_cons, flatMap_no_connect frames, isConnectHook]

/-- Claim C4 (evaluation at the failing input): with `auto_reconnect` left
at its default `True`, a session during which `disconnect()` is called
(second argument `true`) is followed by a fresh connection attempt whose
connect hook fires again — `connect`'s loop decision reads only
`self.auto_reconnect`, never the `self.running` flag that `disconnect()`
clears. -/
theorem reconnect_continues_after_stop :
    runLoop true [SessionOutcome.established [] true,
                  SessionOutcome.established [] false] =
      [LoopEvent.connectHookFired, LoopEvent.connectHookFired] := rfl

/-- Claim C8: encoding a subscription list as `subscribe` does and decoding
the resulting frame returns the action marker `"subscribe"` and the input
list field-for-field. -/
theorem subscribe_frame_roundtrip (msg : SubscriptionMessage) :
    decodeFrame (actionFrame "subscribe" msg) =
      some ("subscribe", msg.subscriptions) := by
  show (decodeSubs (msg.subscriptions.map Subscription.toJson)).map
      (fun subs => ("subscribe", subs)) = _
  rw [decodeSubs_map_toJson]
  rfl

/-- Claim C9, counterexample: a `Subscription` carrying both credential
bundles at once is constructible — the model enforces no mutual
exclusivity, refuting "no entry can carry both". -/
theorem both_auth_constructible :
    bothAuthSub.clob_auth.isSome = true ∧ bothAuthSub.gamma_auth.isSome = true :=
  ⟨rfl, rfl⟩

/-- Claim C9 as amended: the two credential fields are independently
optional — every combination of `clob_auth` (a key/secret/passphrase
triple, when present) and `gamma_auth` (a single address, when present),
including both at once, is constructible alongside any topic, type and
filters. -/
theorem auth_fields_independent (c : Option ClobApiKeyCreds)
    (g : Option GammaAuth) (t ty : String) (f : Option String) :
    ∃ s : Subscription, s.topic = t ∧ s.type = ty ∧ s.filters = f ∧
      s.clob_auth = c ∧ s.gamma_auth = g :=
  ⟨⟨t, ty, f, c, g⟩, rfl, rfl, rfl, rfl, rfl⟩

/-- Claim C3, counterexample: a client whose connection has ended holds a
stale closed transport handle; its transport is not open, yet `subscribe`
and `unsubscribe` do not raise the synchronous "not connected" error —
the guard checks only handle presence — and a send is attempted (it
raises, is logged, and the transport is closed again). -/
theorem stale_client_send_attempted :
    transportOpen staleClient = false ∧
    sendAttempted (subscribeAction staleClient demoMsg) = true ∧
    isNotConnectedError (subscribeAction staleClient demoMsg) = false ∧
    sendAttempted (unsubscribeAction staleClient demoMsg) = true ∧
    isNotConnectedError (unsubscribeAction staleClient demoMsg) = false :=
  ⟨rfl, rfl, rfl, rfl, rfl⟩

/-- Claim C3 as amended: on a client whose transport handle is absent
(never connected), `subscribe` and `unsubscribe` fail synchronously with
the "not connected" error and no send is attempted. -/
theorem no_handle_fails_synchronously (st : ClientState)
    (msg : SubscriptionMessage) (h : st.websocket = none) :
    subscribeAction st msg = SendOutcome.notConnectedError ∧
    unsubscribeAction st msg = SendOutcome.notConnectedError ∧
    sendAttempted (subscribeAction st msg) = false ∧
    sendAttempted (unsubscribeAction st msg) = false := by
  simp [subscribeAction, unsubscribeAction, sendAction, h, sendAttempted]

/-- Claim C3 amended, witness: the freshly constructed client. -/
theorem no_handle_fails_synchronously_witness :
    (⟨none, false⟩ : ClientState).websocket = none ∧
    subscribeAction ⟨none, false⟩ demoMsg = SendOutcome.notConnectedError ∧
    unsubscribeAction ⟨none, false⟩ demoMsg = SendOutcome.notConnectedError :=
  ⟨rfl, (no_handle_fails_synchronously ⟨none, false⟩ demoMsg rfl).1,
    (no_handle_fails_synchronously ⟨none, false⟩ demoMsg rfl).2.1⟩

/-- Claim C10: a well-formed frame whose "payload" value is not a
key/value map is dropped with a reported error and no hook invocation:
the raw fallback hands the non-map value to the `Message` constructor,
whose `Dict[str, Any]` validation rejects it. -/
theorem nonmap_payload_dropped (tV tyV tsV : Option Json) (pV : Json)
    (h : pV.isObj = false) :
    processFrame (Frame.wellFormed (mkDataFrame tV tyV tsV pV)) =
      FrameResult.processError := by
  rw [processFrame_mkDataFrame]
  simp only [processData]
  rw [parsePayload_nonObj _ _ _ h, mkMessage_nonObj _ _ _ _ h]

/-- Claim C10, witness: a string-valued payload. -/
theorem nonmap_payload_dropped_witness :
    (Json.str "oops").isObj = false ∧
    processFrame (Frame.wellFormed (mkDataFrame none none none
        (Json.str "oops"))) = FrameResult.processError :=
  ⟨rfl, nonmap_payload_dropped none none none (Json.str "oops") rfl⟩

/-- Claim C7: every delivered envelope carries topic, type and timestamp;
whenever the corresponding key was absent from the frame the field holds
its default — empty string, empty string, zero — including deliveries
whose payload decode failed (`w` is unconstrained). -/
theorem delivered_envelope_fields_defaulted (tV tyV tsV : Option Json)
    (pV : Json) (m : Message) (w : Bool)
    (h : processFrame (Frame.wellFormed (mkDataFrame tV tyV tsV pV)) =
          FrameResult.dispatched m w) :
    (tV = none → m.topic = "") ∧ (tyV = none → m.type = "") ∧
    (tsV = none → m.timestamp = 0) := by
  rw [processFrame_mkDataFrame] at h
  simp only [processData] at h
  split at h
  next m' heq =>
    injection h with hm _
    subst hm
    obtain ⟨h1, h2, h3, _⟩ := mkMessage_eq_some _ _ _ _ _ heq
    refine ⟨?_, ?_, ?_⟩ <;> intro hn <;> subst hn <;> simp_all
  next => cases h

/-- Claim C7, witness: a frame with no topic, type or timestamp key. -/
theorem delivered_envelope_fields_defaulted_witness :
    processFrame (Frame.wellFormed (mkDataFrame none none none
        (Json.obj [("x", Json.str "y")]))) =
      FrameResult.dispatched ⟨"", "", 0, [("x", Json.str "y")]⟩ false ∧
    ("" = "" ∧ "" = "" ∧ (0 : Int) = 0) :=
  ⟨rfl,
    (delivered_envelope_fields_defaulted none none none
      (Json.obj [("x", Json.str "y")])
      ⟨"", "", 0, [("x", Json.str "y")]⟩ false rfl).1 rfl,
    (delivered_envelope_fields_defaulted none none none
      (Json.obj [("x", Json.str "y")])
      ⟨"", "", 0, [("x", Json.str "y")]⟩ false rfl).2.1 rfl,
    (delivered_envelope_fields_defaulted none none none
      (Json.obj [("x", Json.str "y")])
      ⟨"", "", 0, [("x", Json.str "y")]⟩ false rfl).2.2 rfl⟩

/-- Claim C1: a well-formed frame whose (topic, type) pair the resolution
table recognizes but whose payload map fails the structured decode is
still dispatched to the message hook, with the payload falling back to
the original raw key/value map, and the fallback warning is reported
(`true` in the result). -/
theorem recognized_decode_failure_delivers_raw
    (topic ty : String) (ts : Int) (p : List (String × Json))
    (hrec : recognizedPair topic ty = true)
    (hfail : structuredDecodeOk topic ty p = false) :
    processFrame (Frame.wellFormed (mkDataFrame (some (Json.str topic))
        (some (Json.str ty)) (some (Json.num ts)) (Json.obj p))) =
      FrameResult.dispatched ⟨topic, ty, ts, p⟩ true := by
  rw [processFrame_mkDataFrame]
  simp only [Option.getD_some]
  have hor : (topic = "activity" ∧ ty = "trades") ∨
      (topic = "comments" ∧ (ty = "comment_created" ∨ ty = "comment_removed" ∨
        ty = "reaction_created" ∨ ty = "reaction_removed")) := by
    simpa [recognizedPair, Bool.or_eq_true, Bool.and_eq_true, beq_iff_eq,
      or_assoc] using hrec
  rcases hor with ⟨h1, h2⟩ | ⟨h1, h2 | h2 | h2 | h2⟩ <;> subst h1 <;> subst h2
  · simp [structuredDecodeOk] at hfail
    cases hd : Trade.fromJson? p with
    | some t => rw [hd] at hfail; simp at hfail
    | none => simp [processData, parsePayload, jsonStrEq, tryTrade, hd, mkMessage]
  · simp [structuredDecodeOk] at hfail
    cases hd : Comment.fromJson? p with
    | some c => rw [hd] at hfail; simp at hfail
    | none => simp [processData, parsePayload, jsonStrEq, tryComment, hd, mkMessage]
  · simp [structuredDecodeOk] at hfail
    cases hd : Comment.fromJson? p with
    | some c => rw [hd] at hfail; simp at hfail
    | none => simp [processData, parsePayload, jsonStrEq, tryComment, hd, mkMessage]
  · simp [structuredDecodeOk] at hfail
    cases hd : Reaction.fromJson? p with
    | some r => rw [hd] at hfail; simp at hfail
    | none => simp [processData, parsePayload, jsonStrEq, tryReaction, hd, mkMessage]
  · simp [structuredDecodeOk] at hfail
    cases hd : Reaction.fromJson? p with
    | some r => rw [hd] at hfail; simp at hfail
    | none => simp [processData, parsePayload, jsonStrEq, tryReaction, hd, mkMessage]

/-- Claim C1, witness: an "activity"/"trades" frame whose payload map is
empty, so `Trade` validation fails and the raw (empty) map is
delivered with the warning flag. -/
theorem recognized_decode_failure_delivers_raw_witness :
    recognizedPair "activity" "trades" = true ∧
    structuredDecodeOk "activity" "trades" [] = false ∧
    processFrame (Frame.wellFormed (mkDataFrame (some (Json.str "activity"))
        (some (Json.str "trades")) (some (Json.num 0)) (Json.obj []))) =
      FrameResult.dispatched ⟨"activity", "trades", 0, []⟩ true :=
  ⟨rfl, rfl,
    recognized_decode_failure_delivers_raw "activity" "trades" 0 [] rfl rfl⟩

/-- Claim C6: successful payload resolution follows the fixed table —
("activity", "trades") resolves to `Trade`; ("comments",
"comment_created"/"comment_removed") to `Comment`; ("comments",
"reaction_created"/"reaction_removed") to `Reaction`; every other pair
resolves to the raw value unchanged (with no warning). -/
theorem payload_resolution_table (p : List (String × Json))
    (topic ty : String) (v : Json) :
    (∀ t, Trade.fromJson? p = some t →
      parsePayload (Json.str "activity") (Json.str "trades") (Json.obj p) =
        (ParsedPayload.trade t, false)) ∧
    (∀ c, (ty = "comment_created" ∨ ty = "comment_removed") →
      Comment.fromJson? p = some c →
      parsePayload (Json.str "comments") (Json.str ty) (Json.obj p) =
        (ParsedPayload.comment c, false)) ∧
    (∀ r, (ty = "reaction_created" ∨ ty = "reaction_removed") →
      Reaction.fromJson? p = some r →
      parsePayload (Json.str "comments") (Json.str ty) (Json.obj p) =
        (ParsedPayload.reaction r, false)) ∧
    (recognizedPair topic ty = false →
      parsePayload (Json.str topic) (Json.str ty) v =
        (ParsedPayload.raw v, false)) := by
  refine ⟨?_, ?_, ?_, ?_⟩
  · intro t ht
    simp [parsePayload, jsonStrEq, tryTrade, ht]
  · intro c hty hc
    rcases hty with h | h <;> subst h <;>
      simp [parsePayload, jsonStrEq, tryComment, hc]
  · intro r hty hr
    rcases hty with h | h <;> subst h <;>
      simp [parsePayload, jsonStrEq, tryReaction, hr]
  · intro hrec
    unfold recognizedPair at hrec
    have h1 : (topic == "activity" && ty == "trades") = false := by
      revert hrec
      cases topic == "activity" <;> cases ty == "trades" <;> simp
    have h2 : (topic == "comments" &&
        (ty == "comment_created" || ty == "comment_removed")) = false := by
      revert hrec
      cases topic == "comments" <;> cases ty == "comment_created" <;>
        cases ty == "comment_removed" <;> simp
    have h3 : (topic == "comments" &&
        (ty == "reaction_created" || ty == "reaction_removed")) = false := by
      revert hrec
      cases topic == "comments" <;> cases ty == "reaction_created" <;>
        cases ty == "reaction_removed" <;> simp
    unfold parsePayload
    simp only [jsonStrEq_str, h1, h2, h3]
    simp

/-- Claim C6, witness: one successful decode per table row, and a
fallback for an unrecognized pair. -/
theorem payload_resolution_table_witness :
    Trade.fromJson? tradeSampleJson = some tradeSample ∧
    parsePayload (Json.str "activity") (Json.str "trades")
        (Json.obj tradeSampleJson) = (ParsedPayload.trade tradeSample, false) ∧
    Comment.fromJson? commentSampleJson = some commentSample ∧
    parsePayload (Json.str "comments") (Json.str "comment_created")
        (Json.obj commentSampleJson) =
      (ParsedPayload.comment commentSample, false) ∧
    Reaction.fromJson? reactionSampleJson = some reactionSample ∧
    parsePayload (Json.str "comments") (Json.str "reaction_removed")
        (Json.obj reactionSampleJson) =
      (ParsedPayload.reaction reactionSample, false) ∧
    recognizedPair "activity" "orders" = false ∧
    parsePayload (Json.str "activity") (Json.str "orders") (Json.str "raw") =
      (ParsedPayload.raw (Json.str "raw"), false) :=
  ⟨rfl,
    (payload_resolution_table tradeSampleJson "activity" "trades"
      (Json.obj tradeSampleJson)).1 tradeSample rfl,
    rfl,
    (payload_resolution_table commentSampleJson "comments" "comment_created"
      (Json.obj commentSampleJson)).2.1 commentSample (Or.inl rfl) rfl,
    rfl,
    (payload_resolution_table reactionSampleJson "comments" "reaction_removed"
      (Json.obj reactionSampleJson)).2.2.1 reactionSample (Or.inr rfl) rfl,
    rfl,
    (payload_resolution_table [] "activity" "orders"
      (Json.str "raw")).2.2.2 rfl⟩

end PolymarketWS
